import Mathlib

/-!
Verification of the TaskMaster repository: a shallow embedding in Lean 4 of
the command parser (`src/command.rs`), the wire codec (the serde derive on
`Command`, serialized with `serde_json`), the connection handler and server
startup sequence (`src/server.rs`), and the thread pool (`src/threadpool.rs`),
together with theorems settling the specified properties.

Conventions of the embedding:
- Rust `Vec<String>` becomes `List String`; `&[&str]` input lines become
  `List String`.
- Rust `Result<T, E>` becomes `Except E T`; a Rust panic is modelled as the
  `none` case of an `Option` result.
- `serde_json` values are modelled by the inductive type `Json`; the derived
  `Serialize`/`Deserialize` impls on `Command` (which carry no serde
  attributes) follow the externally tagged enum representation that the
  derive produces: a unit variant serializes as the bare string of its name,
  and a newtype variant as a one-entry map from its name to its payload.
- Byte streams are modelled as `String` (the server reads the buffer through
  `String::from_utf8_lossy` before decoding, so the decode input really is
  a string).
-/

namespace Taskmaster

/-- `Command` from `src/command.rs`: the closed set of request variants.
Targets (`Vec<String>`) become `List String`. -/
inductive Command where
  | Add (targets : List String)
  | Clear (targets : List String)
  | Exit
  | Pid (targets : List String)
  | Remove (targets : List String)
  | ReRead
  | Restart (targets : List String)
  | Start (targets : List String)
  | Status (targets : List String)
  | Stop (targets : List String)
  | Update (targets : List String)
deriving DecidableEq, Repr

/-- `ParsingError` from `src/command.rs`: errors of the textual command
parser. -/
inductive ParsingError where
  | EmptyCommand
  | UnknownCommand (name : String)
  | UnexpectedArguments
  | MissingArguments
deriving DecidableEq, Repr

/-- The `zero_args` arm of the `create_command!` macro in `src/command.rs`:
ok when the argument slice holds only the verb, `UnexpectedArguments`
otherwise. -/
def createZeroArgs (args : List String) (c : Command) :
    Except ParsingError Command :=
  if args.length = 1 then Except.ok c
  else Except.error ParsingError.UnexpectedArguments

/-- The `multiple_args` arm of the `create_command!` macro in
`src/command.rs`: ok with the targets `args[1..]` when there is at least one,
`MissingArguments` otherwise. -/
def createMultipleArgs (args : List String) (f : List String → Command) :
    Except ParsingError Command :=
  if args.length > 1 then Except.ok (f (args.drop 1))
  else Except.error ParsingError.MissingArguments

/-- The `unspecified` arm of the `create_command!` macro in
`src/command.rs`: always ok, carrying the (possibly empty) targets
`args[1..]`. -/
def createUnspecified (args : List String) (f : List String → Command) :
    Except ParsingError Command :=
  Except.ok (f (args.drop 1))

/-- `impl TryFrom<&[&str]> for Command` from `src/command.rs`: the textual
command parser over a whitespace-tokenized input line. -/
def Command.tryFrom : List String → Except ParsingError Command
  | [] => Except.error ParsingError.EmptyCommand
  | command :: rest =>
    if command = "add" then createMultipleArgs (command :: rest) Command.Add
    else if command = "clear" then
      createMultipleArgs (command :: rest) Command.Clear
    else if command = "exit" then createZeroArgs (command :: rest) Command.Exit
    else if command = "pid" then
      createUnspecified (command :: rest) Command.Pid
    else if command = "remove" then
      createMultipleArgs (command :: rest) Command.Remove
    else if command = "reread" then
      createZeroArgs (command :: rest) Command.ReRead
    else if command = "restart" then
      createMultipleArgs (command :: rest) Command.Restart
    else if command = "start" then
      createMultipleArgs (command :: rest) Command.Start
    else if command = "status" then
      createUnspecified (command :: rest) Command.Status
    else if command = "stop" then
      createMultipleArgs (command :: rest) Command.Stop
    else if command = "update" then
      createMultipleArgs (command :: rest) Command.Update
    else Except.error (ParsingError.UnknownCommand command)

/-- A `serde_json` document value. Objects keep their fields in order, as
`serde_json` does when reading or writing a one-key enum map. -/
inductive Json where
  | null
  | bool (b : Bool)
  | num (n : Int)
  | str (s : String)
  | arr (elems : List Json)
  | obj (fields : List (String × Json))

/-- Serialization of a `Vec<String>` payload: a JSON array of strings. -/
def strListToJson (l : List String) : Json :=
  Json.arr (l.map Json.str)

/-- The derived `Serialize` impl on `Command` (no serde attributes), as
`serde_json` renders it: the externally tagged enum representation. A unit
variant (`Exit`, `ReRead`) becomes the bare string of its name; a newtype
variant becomes a one-entry object mapping its name to its target list. -/
def serializeCmd : Command → Json
  | Command.Add ts => Json.obj [("Add", strListToJson ts)]
  | Command.Clear ts => Json.obj [("Clear", strListToJson ts)]
  | Command.Exit => Json.str "Exit"
  | Command.Pid ts => Json.obj [("Pid", strListToJson ts)]
  | Command.Remove ts => Json.obj [("Remove", strListToJson ts)]
  | Command.ReRead => Json.str "ReRead"
  | Command.Restart ts => Json.obj [("Restart", strListToJson ts)]
  | Command.Start ts => Json.obj [("Start", strListToJson ts)]
  | Command.Status ts => Json.obj [("Status", strListToJson ts)]
  | Command.Stop ts => Json.obj [("Stop", strListToJson ts)]
  | Command.Update ts => Json.obj [("Update", strListToJson ts)]

/-- Deserialization of a `Vec<String>` payload from a JSON value: every
element must be a string. -/
def decodeStrList : Json → Except String (List String)
  | Json.arr elems =>
    elems.foldr
      (fun e acc =>
        match e, acc with
        | Json.str s, Except.ok l => Except.ok (s :: l)
        | _, Except.ok _ => Except.error "invalid type: expected a string"
        | _, Except.error e => Except.error e)
      (Except.ok [])
  | _ => Except.error "invalid type: expected a sequence"

/-- The derived `Deserialize` impl on `Command` as `serde_json` runs it on a
document value: externally tagged. A bare string selects a unit variant; a
one-entry object selects the variant named by its key and decodes the value
as that variant's payload (`null` for the unit variants, an array of strings
for the newtype variants). Anything else is a decode error (`serde_json`
errors are modelled as their message strings). -/
def deserializeCmd : Json → Except String Command
  | Json.str s =>
    if s = "Exit" then Except.ok Command.Exit
    else if s = "ReRead" then Except.ok Command.ReRead
    else if s = "Add" ∨ s = "Clear" ∨ s = "Pid" ∨ s = "Remove" ∨
        s = "Restart" ∨ s = "Start" ∨ s = "Status" ∨ s = "Stop" ∨
        s = "Update" then
      Except.error ("invalid type: unit variant, expected newtype variant " ++ s)
    else Except.error ("unknown variant " ++ s)
  | Json.obj [(tag, v)] =>
    if tag = "Add" then (decodeStrList v).map Command.Add
    else if tag = "Clear" then (decodeStrList v).map Command.Clear
    else if tag = "Exit" then
      match v with
      | Json.null => Except.ok Command.Exit
      | _ => Except.error "invalid type: expected unit"
    else if tag = "Pid" then (decodeStrList v).map Command.Pid
    else if tag = "Remove" then (decodeStrList v).map Command.Remove
    else if tag = "ReRead" then
      match v with
      | Json.null => Except.ok Command.ReRead
      | _ => Except.error "invalid type: expected unit"
    else if tag = "Restart" then (decodeStrList v).map Command.Restart
    else if tag = "Start" then (decodeStrList v).map Command.Start
    else if tag = "Status" then (decodeStrList v).map Command.Status
    else if tag = "Stop" then (decodeStrList v).map Command.Stop
    else if tag = "Update" then (decodeStrList v).map Command.Update
    else Except.error ("unknown variant " ++ tag)
  | Json.obj _ => Except.error "expected a map with a single key"
  | _ => Except.error "expected string or map"

/-! ### A model of the `serde_json` text layer

`serde_json::from_str` first reads the JSON text into a document and then
runs `Deserialize`. The lexer below is a straightforward total model of the
JSON grammar (strings with the single-character escapes, integers, literals,
arrays, objects); inputs outside the modelled grammar, like `\u` escapes or
fractional numbers, are reported as decode errors, which is the only fact
the theorems below depend on for such inputs. Recursion is bounded by fuel,
one unit per consumed character, so every call is total. -/

/-- JSON insignificant whitespace. -/
def skipWs (cs : List Char) : List Char :=
  cs.dropWhile fun c => c == ' ' || c == '\t' || c == '\n' || c == '\r'

/-- The character denoted by a single-character escape sequence. -/
def escChar (c : Char) : Option Char :=
  if c = '"' then some '"'
  else if c = '\\' then some '\\'
  else if c = '/' then some '/'
  else if c = 'n' then some '\n'
  else if c = 't' then some '\t'
  else if c = 'r' then some '\r'
  else if c = 'b' then some (Char.ofNat 8)
  else if c = 'f' then some (Char.ofNat 12)
  else none

/-- Reads the body of a JSON string up to its closing quote, decoding
escapes; `none` on an unterminated string or an unmodelled escape. -/
def parseStrAux : List Char → Option (List Char × List Char)
  | [] => none
  | '"' :: rest => some ([], rest)
  | '\\' :: e :: rest => do
    let c ← escChar e
    let (s, r) ← parseStrAux rest
    pure (c :: s, r)
  | '\\' :: [] => none
  | c :: rest => do
    let (s, r) ← parseStrAux rest
    pure (c :: s, r)

/-- Numeric value of a run of decimal digits. -/
def digitsToNat (ds : List Char) : Nat :=
  ds.foldl (fun a c => a * 10 + (c.toNat - 48)) 0

mutual

/-- Reads one JSON value and returns it with the unconsumed remainder. -/
def parseVal : Nat → List Char → Except String (Json × List Char)
  | 0, _ => Except.error "recursion depth exceeded"
  | Nat.succ fuel, cs =>
    match skipWs cs with
    | [] => Except.error "unexpected end of input"
    | c :: rest =>
      if c = '"' then
        match parseStrAux rest with
        | none => Except.error "invalid string"
        | some (s, r) => Except.ok (Json.str (String.mk s), r)
      else if c = '[' then
        match skipWs rest with
        | ']' :: r => Except.ok (Json.arr [], r)
        | r => do
          let (vs, r2) ← parseElems fuel r
          pure (Json.arr vs, r2)
      else if c = '{' then
        match skipWs rest with
        | '}' :: r => Except.ok (Json.obj [], r)
        | r => do
          let (fs, r2) ← parseFields fuel r
          pure (Json.obj fs, r2)
      else if ("true".toList).isPrefixOf (c :: rest) then
        Except.ok (Json.bool true, (c :: rest).drop 4)
      else if ("false".toList).isPrefixOf (c :: rest) then
        Except.ok (Json.bool false, (c :: rest).drop 5)
      else if ("null".toList).isPrefixOf (c :: rest) then
        Except.ok (Json.null, (c :: rest).drop 4)
      else if c.isDigit || c = '-' then
        let body := if c = '-' then rest else c :: rest
        let (ds, r) := body.span Char.isDigit
        if ds.isEmpty then Except.error "invalid number"
        else
          match r with
          | '.' :: _ => Except.error "unmodelled number form"
          | 'e' :: _ => Except.error "unmodelled number form"
          | 'E' :: _ => Except.error "unmodelled number form"
          | _ =>
            let n : Int := Int.ofNat (digitsToNat ds)
            Except.ok (Json.num (if c = '-' then -n else n), r)
      else Except.error "unexpected character"

/-- Reads the elements of a non-empty JSON array up to the closing bracket. -/
def parseElems : Nat → List Char → Except String (List Json × List Char)
  | 0, _ => Except.error "recursion depth exceeded"
  | Nat.succ fuel, cs => do
    let (v, r) ← parseVal fuel cs
    match skipWs r with
    | ',' :: r2 => do
      let (vs, r3) ← parseElems fuel r2
      pure (v :: vs, r3)
    | ']' :: r2 => pure ([v], r2)
    | _ => Except.error "expected comma or end of array"

/-- Reads the fields of a non-empty JSON object up to the closing brace. -/
def parseFields : Nat → List Char →
    Except String (List (String × Json) × List Char)
  | 0, _ => Except.error "recursion depth exceeded"
  | Nat.succ fuel, cs =>
    match skipWs cs with
    | '"' :: rest =>
      match parseStrAux rest with
      | none => Except.error "invalid string"
      | some (key, r) =>
        match skipWs r with
        | ':' :: r2 => do
          let (v, r3) ← parseVal fuel r2
          match skipWs r3 with
          | ',' :: r4 => do
            let (fs, r5) ← parseFields fuel r4
            pure ((String.mk key, v) :: fs, r5)
          | '}' :: r4 => pure ([(String.mk key, v)], r4)
          | _ => Except.error "expected comma or end of object"
        | _ => Except.error "expected colon"
    | _ => Except.error "expected object key"

end

/-- The document-reading phase of `serde_json::from_str`: parse the whole
input as one JSON value with nothing but whitespace after it. -/
def parseJson (s : String) : Except String Json :=
  match parseVal (s.toList.length + 1) s.toList with
  | Except.error e => Except.error e
  | Except.ok (v, rest) =>
    match skipWs rest with
    | [] => Except.ok v
    | _ => Except.error "trailing characters"

/-- `serde_json::from_str::<Command>` as the server calls it in
`handle_connection`: read the document, then run the derived
deserializer. -/
def wireDecode (s : String) : Except String Command :=
  match parseJson s with
  | Except.error e => Except.error e
  | Except.ok j => deserializeCmd j

/-! ### The server (`src/server.rs`), thread pool (`src/threadpool.rs`) and
client (`src/client.rs`) -/

/-- `DEFAULT_ADDR` from `src/lib.rs`: default address and port of the
taskmaster daemon. -/
def DEFAULT_ADDR : String := "127.0.0.1:2121"

/-- `NUM_THREADS` from `src/server.rs`: number of threads in the pool. -/
def NUM_THREADS : Nat := 4

/-- A worker of `src/threadpool.rs`, identified by the index it is created
with; the spawned thread itself is operational and not modelled. -/
structure Worker where
  id : Nat
deriving DecidableEq, Repr

/-- `ThreadPool` from `src/threadpool.rs`: its observable shape is its
vector of workers. -/
structure ThreadPool where
  workers : List Worker
deriving DecidableEq, Repr

/-- `ThreadPool::new` from `src/threadpool.rs`: `assert!(size > 0)` panics
on a zero size (modelled as `none`); otherwise the pool holds one worker
per index in `0..size`. -/
def ThreadPool.new (size : Nat) : Option ThreadPool :=
  if 0 < size then some ⟨(List.range size).map Worker.mk⟩ else none

/-- The externally observable effect of `handle_connection` in
`src/server.rs`: what was written back on the stream, and the `Result` the
function returns to its caller. -/
structure ConnectionEffect where
  written : Option String
  result : Except String Unit
deriving Repr

/-- `handle_connection` from `src/server.rs`. `readResult` is the outcome
of `stream.read` (the bytes already passed through
`String::from_utf8_lossy`), `writeResult` the outcome of
`stream.write_all`. A read error is printed and the function returns ok
without writing; a wire decode error is returned to the caller via `?` with
nothing written; on a decoded command the fixed response is written back. -/
def handle_connection (readResult : Except String String)
    (writeResult : Except String Unit) : ConnectionEffect :=
  match readResult with
  | Except.error _ => ⟨none, Except.ok ()⟩
  | Except.ok s =>
    match wireDecode s with
    | Except.error e =>
      ⟨none, Except.error ("Failed to deserialize Command: " ++ e)⟩
    | Except.ok _cmd =>
      match writeResult with
      | Except.ok _ => ⟨some "Your program is running ok.", Except.ok ()⟩
      | Except.error e => ⟨some "Your program is running ok.", Except.error e⟩

/-- The environment `server::run` executes in: the outcomes of its
side-effecting steps, in the order the code consults them. `Config::parse`
delegates to `serde_yaml` on a file, both external; only its `Result` shape
reaches `run`, so it is modelled as `Except String Unit`. -/
structure RunEnv where
  homeDir : Option String
  daemonizeResult : Except String Unit
  configResult : Except String Unit
  bindResult : Except String Unit
deriving Repr

/-- How far `server::run` from `src/server.rs` gets: an error return before
daemonizing, a pool-creation panic, the `process::exit(1)` taken when
`Config::parse` fails, an error return from `TcpListener::bind`, or binding
successfully and serving connections. -/
inductive RunOutcome where
  | failHome
  | failDaemonize (err : String)
  | poolPanic
  | configExit (code : Nat) (err : String)
  | failBind (err : String)
  | serving (addr : String)
deriving DecidableEq, Repr

/-- True exactly when the outcome means `TcpListener::bind` was reached. -/
def RunOutcome.attemptsBind : RunOutcome → Bool
  | RunOutcome.failBind _ => true
  | RunOutcome.serving _ => true
  | _ => false

/-- `run` from `src/server.rs`, step by step: resolve `$HOME`, daemonize,
create the thread pool, parse the configuration (failure prints the error
and calls `process::exit(1)`), bind `DEFAULT_ADDR`, then serve. -/
def server_run (env : RunEnv) : RunOutcome :=
  match env.homeDir with
  | none => RunOutcome.failHome
  | some _ =>
    match env.daemonizeResult with
    | Except.error e => RunOutcome.failDaemonize e
    | Except.ok _ =>
      match ThreadPool.new NUM_THREADS with
      | none => RunOutcome.poolPanic
      | some _pool =>
        match env.configResult with
        | Except.error e => RunOutcome.configExit 1 e
        | Except.ok _conf =>
          match env.bindResult with
          | Except.error e => RunOutcome.failBind e
          | Except.ok _ => RunOutcome.serving DEFAULT_ADDR

/-- The address `client::run` from `src/client.rs` connects to, both in its
startup probe and when sending each serialized command
(`TcpStream::connect(DEFAULT_ADDR)`). -/
def clientConnectAddr : String := DEFAULT_ADDR

/-! ### The supervision state machine

Modelled from the spec: the supervision engine (states, autorestart policy,
respawning) is not implemented under `src/` — `handle_connection` carries
only the placeholder comment `Execute the command here.` and no module
spawns or monitors processes — so the definitions below follow the spec's
transition list (its state-machine section) verbatim. -/

/-- Modelled from the spec: the autorestart policy of a `ProgramSpec`. -/
inductive AutoRestart where
  | Never
  | Always
  | Unexpected
deriving DecidableEq, Repr

/-- Modelled from the spec: the states of the supervision state machine. -/
inductive PState where
  | STOPPED
  | STARTING
  | RUNNING
  | BACKOFF
  | STOPPING
  | EXITED
  | FATAL
  | UNKNOWN
deriving DecidableEq, Repr

/-- Modelled from the spec: the `ProgramSpec` fields the state machine
consults. -/
structure ProgramSpec where
  autorestart : AutoRestart
  exitcodes : List Int
  startretries : Nat
deriving DecidableEq, Repr

/-- Modelled from the spec: one process instance as the state machine sees
it — current state and consecutive failed starts. -/
structure Inst where
  state : PState
  retryCount : Nat
deriving DecidableEq, Repr

/-- Modelled from the spec: the events that drive one instance. `startCmd`
and `stopCmd` are explicit control commands; the timer events are the
`startsecs`, backoff and `stopwaitsecs` timers; `exitedEarly` is a process
exit during `STARTING`; `exited code` a process exit while `RUNNING`;
`stopConfirmed`/`stopKillReaped` the two ways a stop completes; `ctlError`
a spawn or signal failure of the process controller. -/
inductive Event where
  | startCmd
  | stopCmd
  | startTimerElapsed
  | exitedEarly
  | retryTimerElapsed
  | exited (code : Int)
  | stopConfirmed
  | stopKillReaped
  | ctlError
deriving DecidableEq, Repr

/-- Modelled from the spec: the transition function of the supervision
state machine, one equation per transition in the spec's list. A controller
error (a spawn or signal failure) can only be reported from a state with a
controller action in flight (`STARTING`, `RUNNING`, `STOPPING`), where it
drives the instance to `UNKNOWN`; every unlisted state/event pair is a
no-op. -/
def step (p : ProgramSpec) (i : Inst) (e : Event) : Inst :=
  match i.state, e with
  | PState.STOPPED, Event.startCmd => ⟨PState.STARTING, 0⟩
  | PState.EXITED, Event.startCmd => ⟨PState.STARTING, 0⟩
  | PState.FATAL, Event.startCmd => ⟨PState.STARTING, 0⟩
  | PState.STARTING, Event.startTimerElapsed =>
    ⟨PState.RUNNING, i.retryCount⟩
  | PState.STARTING, Event.exitedEarly =>
    if i.retryCount < p.startretries then ⟨PState.BACKOFF, i.retryCount + 1⟩
    else ⟨PState.FATAL, i.retryCount + 1⟩
  | PState.BACKOFF, Event.retryTimerElapsed => ⟨PState.STARTING, i.retryCount⟩
  | PState.RUNNING, Event.stopCmd => ⟨PState.STOPPING, i.retryCount⟩
  | PState.STARTING, Event.stopCmd => ⟨PState.STOPPING, i.retryCount⟩
  | PState.STOPPING, Event.stopConfirmed => ⟨PState.STOPPED, i.retryCount⟩
  | PState.STOPPING, Event.stopKillReaped => ⟨PState.STOPPED, i.retryCount⟩
  | PState.RUNNING, Event.exited code =>
    match p.autorestart with
    | AutoRestart.Always => ⟨PState.STARTING, 0⟩
    | AutoRestart.Unexpected =>
      if code ∈ p.exitcodes then ⟨PState.EXITED, i.retryCount⟩
      else ⟨PState.STARTING, 0⟩
    | AutoRestart.Never => ⟨PState.EXITED, i.retryCount⟩
  | PState.STARTING, Event.ctlError => ⟨PState.UNKNOWN, i.retryCount⟩
  | PState.RUNNING, Event.ctlError => ⟨PState.UNKNOWN, i.retryCount⟩
  | PState.STOPPING, Event.ctlError => ⟨PState.UNKNOWN, i.retryCount⟩
  | _, _ => i

/-! ### Observations used to state the claims -/

/-- The Rust identifier of a `Command` variant, exactly as the serde derive
uses it for the tag. -/
def variantName : Command → String
  | Command.Add _ => "Add"
  | Command.Clear _ => "Clear"
  | Command.Exit => "Exit"
  | Command.Pid _ => "Pid"
  | Command.Remove _ => "Remove"
  | Command.ReRead => "ReRead"
  | Command.Restart _ => "Restart"
  | Command.Start _ => "Start"
  | Command.Status _ => "Status"
  | Command.Stop _ => "Stop"
  | Command.Update _ => "Update"

/-- The target list a `Command` carries, `none` for the unit variants. -/
def targetsOf : Command → Option (List String)
  | Command.Add ts => some ts
  | Command.Clear ts => some ts
  | Command.Exit => none
  | Command.Pid ts => some ts
  | Command.Remove ts => some ts
  | Command.ReRead => none
  | Command.Restart ts => some ts
  | Command.Start ts => some ts
  | Command.Status ts => some ts
  | Command.Stop ts => some ts
  | Command.Update ts => some ts

/-- Follows the spec's words, for comparison with `serializeCmd`: a wire
document of the shape it prescribes, an object with a `type` field holding
a variant-name string and a `targets` field holding a list. -/
def hasSpecTaggedShape : Json → Bool
  | Json.obj fields =>
    (match fields.lookup "type" with
     | some (Json.str _) => true
     | _ => false) &&
    (match fields.lookup "targets" with
     | some (Json.arr _) => true
     | _ => false)
  | _ => false

/-- The target-list invariant the spec states for `Command` values: every
variant except `Exit`, `ReRead`, `Pid` and `Status` carries a non-empty
target list. -/
def Command.targetsInvariant : Command → Bool
  | Command.Exit => true
  | Command.ReRead => true
  | Command.Pid _ => true
  | Command.Status _ => true
  | Command.Add ts => !ts.isEmpty
  | Command.Clear ts => !ts.isEmpty
  | Command.Remove ts => !ts.isEmpty
  | Command.Restart ts => !ts.isEmpty
  | Command.Start ts => !ts.isEmpty
  | Command.Stop ts => !ts.isEmpty
  | Command.Update ts => !ts.isEmpty

/-- Decoding a serialized target list recovers it. -/
theorem decodeStrList_strListToJson (ts : List String) :
    decodeStrList (strListToJson ts) = Except.ok ts := by
  induction ts with
  | nil => rfl
  | cons s rest ih =>
    simp only [strListToJson, decodeStrList, List.map, List.foldr] at ih ⊢
    rw [ih]

/-! ### The claims -/

/-- C1 (counterexample): the wire serialization is not of the shape the
claim states. Neither `Add(["nginx"])` nor `Exit` serializes to an object
with a `type` field and a `targets` field: the derive produces the
externally tagged representation instead. -/
theorem c1_wire_shape_counterexample :
    hasSpecTaggedShape (serializeCmd (Command.Add ["nginx"])) = false ∧
    hasSpecTaggedShape (serializeCmd Command.Exit) = false :=
  ⟨rfl, rfl⟩

/-- C1 (amended): for every `Command` value, the wire serialization is the
externally tagged representation of the serde derive — a one-entry object
mapping the variant name to the array of targets for the target-carrying
variants, and the bare variant-name string for `Exit` and `ReRead`. -/
theorem c1_wire_shape (c : Command) :
    serializeCmd c =
      match targetsOf c with
      | some ts => Json.obj [(variantName c, Json.arr (ts.map Json.str))]
      | none => Json.str (variantName c) := by
  cases c <;> rfl

/-- C3: serializing any constructible `Command` with the wire codec and
deserializing the result yields the original `Command`. -/
theorem c3_codec_roundtrip (c : Command) :
    deserializeCmd (serializeCmd c) = Except.ok c := by
  cases c <;>
    simp [serializeCmd, deserializeCmd, decodeStrList_strListToJson,
      Except.map]

/-- C4: the textual command parser returns exactly the stated error for
each stated input — `EmptyCommand` on an empty token list,
`UnexpectedArguments` on `exit` with an extra token, `MissingArguments` on
`stop` without targets, and `UnknownCommand` carrying the verb verbatim on
an unrecognized verb. -/
theorem c4_parser_errors :
    Command.tryFrom [] = Except.error ParsingError.EmptyCommand ∧
    Command.tryFrom ["exit", "extra"] =
      Except.error ParsingError.UnexpectedArguments ∧
    Command.tryFrom ["stop"] = Except.error ParsingError.MissingArguments ∧
    Command.tryFrom ["frobnicate"] =
      Except.error (ParsingError.UnknownCommand "frobnicate") :=
  ⟨rfl, rfl, rfl, rfl⟩

/-- C2: the arity rule of the textual parser, over any tokenized line. The
verbs `exit` and `reread` succeed exactly on zero further tokens and return
`UnexpectedArguments` otherwise; `add`, `clear`, `remove`, `restart`,
`start`, `stop`, `update` return `MissingArguments` on zero targets and
succeed carrying exactly the given targets in order otherwise; `pid` and
`status` always succeed, carrying the given targets. -/
theorem c2_parser_arity (t : List String) :
    (Command.tryFrom ("exit" :: t) =
      if t.isEmpty then Except.ok Command.Exit
      else Except.error ParsingError.UnexpectedArguments) ∧
    (Command.tryFrom ("reread" :: t) =
      if t.isEmpty then Except.ok Command.ReRead
      else Except.error ParsingError.UnexpectedArguments) ∧
    (Command.tryFrom ("add" :: t) =
      if t.isEmpty then Except.error ParsingError.MissingArguments
      else Except.ok (Command.Add t)) ∧
    (Command.tryFrom ("clear" :: t) =
      if t.isEmpty then Except.error ParsingError.MissingArguments
      else Except.ok (Command.Clear t)) ∧
    (Command.tryFrom ("remove" :: t) =
      if t.isEmpty then Except.error ParsingError.MissingArguments
      else Except.ok (Command.Remove t)) ∧
    (Command.tryFrom ("restart" :: t) =
      if t.isEmpty then Except.error ParsingError.MissingArguments
      else Except.ok (Command.Restart t)) ∧
    (Command.tryFrom ("start" :: t) =
      if t.isEmpty then Except.error ParsingError.MissingArguments
      else Except.ok (Command.Start t)) ∧
    (Command.tryFrom ("stop" :: t) =
      if t.isEmpty then Except.error ParsingError.MissingArguments
      else Except.ok (Command.Stop t)) ∧
    (Command.tryFrom ("update" :: t) =
      if t.isEmpty then Except.error ParsingError.MissingArguments
      else Except.ok (Command.Update t)) ∧
    (Command.tryFrom ("pid" :: t) = Except.ok (Command.Pid t)) ∧
    (Command.tryFrom ("status" :: t) = Except.ok (Command.Status t)) := by
  refine ⟨?_, ?_, ?_, ?_, ?_, ?_, ?_, ?_, ?_, ?_, ?_⟩ <;> cases t <;>
    first
      | rfl
      | simp [Command.tryFrom, createZeroArgs, createMultipleArgs,
          createUnspecified]

/-- C5 (counterexample): the non-empty-target invariant does not hold for
every `Command` obtained from wire deserialization: the wire codec accepts
a document carrying an empty target list for `Add` and yields
`Add([])`, which violates the invariant. -/
theorem c5_invariant_counterexample :
    deserializeCmd (Json.obj [("Add", Json.arr [])]) =
      Except.ok (Command.Add []) ∧
    Command.targetsInvariant (Command.Add []) = false :=
  ⟨rfl, rfl⟩

/-- C5 (amended): every `Command` obtained from the textual parser
satisfies the invariant — variants other than `Exit`, `ReRead`, `Pid` and
`Status` carry a non-empty target list. (Wire deserialization does not
enforce it: see the counterexample.) -/
theorem c5_parser_invariant (args : List String) (c : Command)
    (h : Command.tryFrom args = Except.ok c) :
    Command.targetsInvariant c = true := by
  cases args with
  | nil => exact absurd h (by simp [Command.tryFrom])
  | cons v t =>
    by_cases h1 : v = "add"
    · subst h1
      cases t with
      | nil => simp [Command.tryFrom, createMultipleArgs] at h
      | cons x xs =>
        simp [Command.tryFrom, createMultipleArgs] at h
        subst h
        simp [Command.targetsInvariant]
    by_cases h2 : v = "clear"
    · subst h2
      cases t with
      | nil => simp [Command.tryFrom, createMultipleArgs] at h
      | cons x xs =>
        simp [Command.tryFrom, createMultipleArgs] at h
        subst h
        simp [Command.targetsInvariant]
    by_cases h3 : v = "exit"
    · subst h3
      cases t with
      | nil =>
        simp [Command.tryFrom, createZeroArgs] at h
        subst h
        simp [Command.targetsInvariant]
      | cons x xs => simp [Command.tryFrom, createZeroArgs] at h
    by_cases h4 : v = "pid"
    · subst h4
      simp [Command.tryFrom, createUnspecified] at h
      subst h
      simp [Command.targetsInvariant]
    by_cases h5 : v = "remove"
    · subst h5
      cases t with
      | nil => simp [Command.tryFrom, createMultipleArgs] at h
      | cons x xs =>
        simp [Command.tryFrom, createMultipleArgs] at h
        subst h
        simp [Command.targetsInvariant]
    by_cases h6 : v = "reread"
    · subst h6
      cases t with
      | nil =>
        simp [Command.tryFrom, createZeroArgs] at h
        subst h
        simp [Command.targetsInvariant]
      | cons x xs => simp [Command.tryFrom, createZeroArgs] at h
    by_cases h7 : v = "restart"
    · subst h7
      cases t with
      | nil => simp [Command.tryFrom, createMultipleArgs] at h
      | cons x xs =>
        simp [Command.tryFrom, createMultipleArgs] at h
        subst h
        simp [Command.targetsInvariant]
    by_cases h8 : v = "start"
    · subst h8
      cases t with
      | nil => simp [Command.tryFrom, createMultipleArgs] at h
      | cons x xs =>
        simp [Command.tryFrom, createMultipleArgs] at h
        subst h
        simp [Command.targetsInvariant]
    by_cases h9 : v = "status"
    · subst h9
      simp [Command.tryFrom, createUnspecified] at h
      subst h
      simp [Command.targetsInvariant]
    by_cases h10 : v = "stop"
    · subst h10
      cases t with
      | nil => simp [Command.tryFrom, createMultipleArgs] at h
      | cons x xs =>
        simp [Command.tryFrom, createMultipleArgs] at h
        subst h
        simp [Command.targetsInvariant]
    by_cases h11 : v = "update"
    · subst h11
      cases t with
      | nil => simp [Command.tryFrom, createMultipleArgs] at h
      | cons x xs =>
        simp [Command.tryFrom, createMultipleArgs] at h
        subst h
        simp [Command.targetsInvariant]
    simp [Command.tryFrom, h1, h2, h3, h4, h5, h6, h7, h8, h9, h10, h11] at h

/-- C5 (witness): the amended theorem at the concrete parse of
`start web`. -/
theorem c5_parser_invariant_witness :
    Command.targetsInvariant (Command.Start ["web"]) = true :=
  c5_parser_invariant ["start", "web"] (Command.Start ["web"]) rfl

/-- C6: for every byte sequence received on a connection, wire decoding
either yields a `Command` or fails with a decode error; on failure
`handle_connection` returns that error to its caller (so it is reported,
and the daemon — which merely drops the returned `Result` — does not
crash), and nothing is written back on the connection. The decode error is
a `serde_json` message (a `String` here), a type disjoint from
`ParsingError`, which only the textual parser produces. -/
theorem c6_decode_failure_no_response (s : String)
    (w : Except String Unit) :
    (∃ c, wireDecode s = Except.ok c) ∨
    (∃ e, wireDecode s = Except.error e ∧
      handle_connection (Except.ok s) w =
        ⟨none, Except.error ("Failed to deserialize Command: " ++ e)⟩) := by
  cases hd : wireDecode s with
  | ok c => exact Or.inl ⟨c, rfl⟩
  | error e =>
    exact Or.inr ⟨e, rfl, by simp [handle_connection, hd]⟩

/-- C7: with `autorestart = Never`, a process exit while `RUNNING` moves
the instance to `EXITED`, and no automatic respawn follows: no single
event other than an explicit start command leaves `EXITED`, and along any
event sequence free of start commands the instance stays in `EXITED`.
(The supervision engine is modelled from the spec, being absent from
`src/`.) -/
theorem c7_autorestart_never (p : ProgramSpec)
    (hp : p.autorestart = AutoRestart.Never) :
    (∀ rc code, step p ⟨PState.RUNNING, rc⟩ (Event.exited code) =
      ⟨PState.EXITED, rc⟩) ∧
    (∀ rc e, e ≠ Event.startCmd →
      step p ⟨PState.EXITED, rc⟩ e = ⟨PState.EXITED, rc⟩) ∧
    (∀ (es : List Event) (rc : Nat), (∀ e ∈ es, e ≠ Event.startCmd) →
      es.foldl (step p) ⟨PState.EXITED, rc⟩ = ⟨PState.EXITED, rc⟩) := by
  have hexited : ∀ rc e, e ≠ Event.startCmd →
      step p ⟨PState.EXITED, rc⟩ e = ⟨PState.EXITED, rc⟩ := by
    intro rc e he
    cases e <;> simp_all [step]
  refine ⟨fun rc code => by simp [step, hp], hexited, ?_⟩
  intro es
  induction es with
  | nil => intro rc _; rfl
  | cons e rest ih =>
    intro rc hes
    have h1 : e ≠ Event.startCmd := hes e (List.mem_cons_self e rest)
    have h2 : ∀ x ∈ rest, x ≠ Event.startCmd := fun x hx =>
      hes x (List.mem_cons_of_mem e hx)
    simp only [List.foldl_cons, hexited rc e h1]
    exact ih rc h2

/-- C7 (witness): the theorem at a concrete `Never` program — an exit with
code 1 while `RUNNING`, then a reaper notification, leave the instance in
`EXITED`. -/
theorem c7_autorestart_never_witness :
    step ⟨AutoRestart.Never, [0], 3⟩ ⟨PState.RUNNING, 0⟩ (Event.exited 1) =
      ⟨PState.EXITED, 0⟩ ∧
    [Event.exited 0, Event.stopCmd].foldl
      (step ⟨AutoRestart.Never, [0], 3⟩) ⟨PState.EXITED, 0⟩ =
      ⟨PState.EXITED, 0⟩ :=
  ⟨(c7_autorestart_never ⟨AutoRestart.Never, [0], 3⟩ rfl).1 0 1,
    (c7_autorestart_never ⟨AutoRestart.Never, [0], 3⟩ rfl).2.2
      [Event.exited 0, Event.stopCmd] 0 (by decide)⟩

/-- C8: when `Config::parse` fails, `run` reports the error and aborts the
daemon start — the outcome is reached before `TcpListener::bind` (it is
`process::exit(1)` when the earlier steps succeeded, or one of the two
earlier failures), and the listener is never bound nor connections
served. -/
theorem c8_config_failure_aborts (env : RunEnv) (e : String)
    (hc : env.configResult = Except.error e) :
    RunOutcome.attemptsBind (server_run env) = false ∧
    (∀ d, env.homeDir = some d → env.daemonizeResult = Except.ok () →
      server_run env = RunOutcome.configExit 1 e) := by
  obtain ⟨home, dres, cres, bres⟩ := env
  simp only at hc
  subst hc
  constructor
  · cases home <;> cases dres <;>
      simp [server_run, RunOutcome.attemptsBind, ThreadPool.new, NUM_THREADS]
  · intro d hd hdres
    simp only at hd hdres
    subst hd
    subst hdres
    simp [server_run, ThreadPool.new, NUM_THREADS]

/-- C8 (witness): the theorem at a concrete environment whose config parse
fails with `bad yaml`. -/
theorem c8_config_failure_aborts_witness :
    RunOutcome.attemptsBind (server_run ⟨some "/home/u", Except.ok (),
      Except.error "bad yaml", Except.ok ()⟩) = false ∧
    server_run ⟨some "/home/u", Except.ok (), Except.error "bad yaml",
      Except.ok ()⟩ = RunOutcome.configExit 1 "bad yaml" :=
  ⟨(c8_config_failure_aborts ⟨some "/home/u", Except.ok (),
      Except.error "bad yaml", Except.ok ()⟩ "bad yaml" rfl).1,
    (c8_config_failure_aborts ⟨some "/home/u", Except.ok (),
      Except.error "bad yaml", Except.ok ()⟩ "bad yaml" rfl).2
      "/home/u" rfl rfl⟩

/-- C9: the default control-protocol address is the TCP address
`127.0.0.1:2121` — the constant itself, the address the daemon serves on
whenever it binds, and the address the client connects to. -/
theorem c9_default_addr :
    DEFAULT_ADDR = "127.0.0.1:2121" ∧
    (∀ env a, server_run env = RunOutcome.serving a →
      a = "127.0.0.1:2121") ∧
    clientConnectAddr = "127.0.0.1:2121" := by
  refine ⟨rfl, ?_, rfl⟩
  intro env a h
  obtain ⟨home, dres, cres, bres⟩ := env
  cases home <;> cases dres <;> cases cres <;> cases bres <;>
    simp_all [server_run, ThreadPool.new, NUM_THREADS, DEFAULT_ADDR]

/-- C9 (witness): the theorem applied at a concrete environment where every
startup step succeeds, so the daemon serves on the default address. -/
theorem c9_default_addr_witness : "127.0.0.1:2121" = "127.0.0.1:2121" :=
  c9_default_addr.2.1 ⟨some "/home/u", Except.ok (), Except.ok (),
    Except.ok ()⟩ "127.0.0.1:2121" rfl

/-- C10: `ThreadPool::new` panics on size zero (modelled as `none`), and
for every positive size returns a pool with exactly `size` workers. -/
theorem c10_threadpool_new (size : Nat) (h : 0 < size) :
    ThreadPool.new 0 = none ∧
    (ThreadPool.new size).map (fun p => p.workers.length) = some size := by
  refine ⟨rfl, ?_⟩
  simp [ThreadPool.new, h]

/-- C10 (witness): the theorem at `NUM_THREADS = 4`, the size the server
uses. -/
theorem c10_threadpool_new_witness :
    ThreadPool.new 0 = none ∧
    (ThreadPool.new 4).map (fun p => p.workers.length) = some 4 :=
  c10_threadpool_new 4 (by decide)

end Taskmaster
